import Mathlib

/-!
Verification development for the Eventrix booking service: a shallow
embedding of the seat-inventory coordination engine implemented in
`src/services/booking-service/src/routes/bookings.js` (booking creation,
cancellation, and the waitlist promotion pass) together with the Seat
Ledger adjustment contract exercised by the event-service tests.

External effects (the event-service HTTP calls, the payment simulation,
reference and transaction-id generation, clock reads) are passed in as
explicit parameters, so every route handler becomes a pure function from
its inputs and resolved effects to a result plus the list of persisted
bookings and the list of seat deltas sent to the Ledger.
-/

namespace Eventrix

/-- The `bookingStatus` values used by the booking routes. -/
inductive BookingStatus
| pending
| confirmed
| waitlisted
| cancelled
deriving DecidableEq, Repr

/-- The `paymentStatus` values used by the booking routes. -/
inductive PaymentStatus
| pending
| completed
| failed
| refunded
deriving DecidableEq, Repr

/-- A booking record as persisted by the booking service.  Dates and
timestamps are modelled as integers (milliseconds since epoch), prices as
integers. -/
structure Booking where
  bookingReference : String
  userId : String
  userName : String
  userEmail : String
  eventId : String
  eventTitle : String
  eventDate : Int
  eventVenue : String
  eventTime : String
  numberOfTickets : Int
  pricePerTicket : Int
  paymentMethod : String
  bookingStatus : BookingStatus
  paymentStatus : PaymentStatus
  transactionId : Option String
  createdAt : Int
deriving DecidableEq, Repr

/-- Modelled from the spec: the Booking model file
(`src/services/booking-service/src/models/Booking.js`) is not under `src/`;
§3 of the spec defines `totalAmount = numberOfTickets * pricePerTicket`
as a derived field, and the routes read `booking.totalAmount`. -/
def totalAmount (b : Booking) : Int :=
  b.numberOfTickets * b.pricePerTicket

/-- The event snapshot returned by `GET /api/events/:id`. -/
structure EventSnapshot where
  id : String
  title : String
  date : Int
  venue : String
  time : String
  price : Int
  status : String
  availableSeats : Int
  capacity : Int
deriving DecidableEq, Repr

/-- The authenticated user attached to the request by `verifyToken`. -/
structure User where
  id : String
  name : String
  email : String
  role : String
deriving DecidableEq, Repr

/-- The body of `POST /api/bookings`.  Absent JSON fields are `none`. -/
structure CreateRequest where
  eventId : Option String
  numberOfTickets : Option Int
  paymentMethod : Option String
  joinWaitlist : Bool
deriving DecidableEq, Repr

/-- Outcome of one `PATCH /api/events/:id/seats` call as observed by the
booking service: the call either succeeds (with a response body that may
or may not carry `availableSeats`) or throws. -/
inductive PatchOutcome
| success (availableSeats : Option Int)
| failure
deriving DecidableEq, Repr

/-- JavaScript truthiness of an optional string (`!eventId`): absent and
empty strings are falsy. -/
def jsTruthyStr : Option String → Bool
| none => false
| some s => s ≠ ""

/-- JavaScript truthiness of an optional number (`!numberOfTickets`):
absent and zero are falsy; every other number, including negatives, is
truthy. -/
def jsTruthyNum : Option Int → Bool
| none => false
| some n => n ≠ 0

/-- The distinct response shapes of `POST /api/bookings`, one constructor
per `return res.status(...)` site in the handler. -/
inductive CreateResult
| missingFields
| eventNotFound
| eventCancelled
| pastEvent
| notEnoughSeats (availableSeats requested : Int)
| waitlistedResp (reference : String) (status : BookingStatus) (title : String)
    (date : Int) (venue : String) (tickets : Int)
| paymentFailed (reference : String)
| seatUpdateFailed
| confirmedResp (reference : String) (title : String) (date : Int) (venue : String)
    (tickets : Int) (amount : Int) (payment : PaymentStatus) (txn : String)
    (status : BookingStatus)
deriving DecidableEq, Repr

/-- The HTTP status code attached to each response shape in the handler. -/
def statusCode : CreateResult → Nat
| .missingFields => 400
| .eventNotFound => 404
| .eventCancelled => 400
| .pastEvent => 400
| .notEnoughSeats _ _ => 400
| .waitlistedResp _ _ _ _ _ _ => 202
| .paymentFailed _ => 400
| .seatUpdateFailed => 500
| .confirmedResp _ _ _ _ _ _ _ _ _ => 201

/-- The booking reference carried by the response body, when any. -/
def responseRef : CreateResult → Option String
| .waitlistedResp r _ _ _ _ _ => some r
| .paymentFailed r => some r
| .confirmedResp r _ _ _ _ _ _ _ _ => some r
| _ => none

/-- Result of `POST /api/bookings` together with its persistence and
Ledger side effects: `saved` lists the bookings passed to `save()` in
order, `ledgerCalls` the `seatsToBook` values sent to the Ledger, and
`appliedDeltas` the subset of those calls the Ledger accepted.
`paymentAttempted` records whether the payment simulation ran. -/
structure CreateOutcome where
  result : CreateResult
  saved : List Booking
  ledgerCalls : List Int
  appliedDeltas : List Int
  paymentAttempted : Bool
deriving DecidableEq, Repr

/-- Shallow embedding of the `POST /api/bookings` handler
(`router.post('/')` in `bookings.js`).  `eventLookup` is the resolved
`GET /events/:id` call (`none` when it threw), `now` the current clock,
`newRef` and `createdAt` the store-assigned reference and timestamp,
`paymentSuccess` the resolved `Math.random() > 0.1` draw, `txn` the
generated transaction id, and `seatPatch` the resolved seat-delta call. -/
def createBooking (req : CreateRequest) (user : User)
    (eventLookup : Option EventSnapshot) (now : Int) (newRef : String)
    (createdAt : Int) (paymentSuccess : Bool) (txn : String)
    (seatPatch : PatchOutcome) : CreateOutcome :=
  if !(jsTruthyStr req.eventId) || !(jsTruthyNum req.numberOfTickets) then
    ⟨.missingFields, [], [], [], false⟩
  else
    match eventLookup with
    | none => ⟨.eventNotFound, [], [], [], false⟩
    | some event =>
      if event.status = "cancelled" then ⟨.eventCancelled, [], [], [], false⟩
      else if event.date < now then ⟨.pastEvent, [], [], [], false⟩
      else
        let t := req.numberOfTickets.getD 0
        let shouldWaitlist := event.availableSeats < t
        if shouldWaitlist ∧ ¬req.joinWaitlist then
          ⟨.notEnoughSeats event.availableSeats t, [], [], [], false⟩
        else
          let booking : Booking :=
            { bookingReference := newRef
              userId := user.id
              userName := user.name
              userEmail := user.email
              eventId := event.id
              eventTitle := event.title
              eventDate := event.date
              eventVenue := event.venue
              eventTime := event.time
              numberOfTickets := t
              pricePerTicket := event.price
              paymentMethod :=
                match req.paymentMethod with
                | some s => if s = "" then ("credit_card") else s
                | none => "credit_card"
              bookingStatus := .pending
              paymentStatus := .pending
              transactionId := none
              createdAt := createdAt }
          if shouldWaitlist then
            let b := { booking with
              bookingStatus := BookingStatus.waitlisted
              paymentStatus := PaymentStatus.pending }
            ⟨.waitlistedResp b.bookingReference b.bookingStatus b.eventTitle
                b.eventDate b.eventVenue b.numberOfTickets, [b], [], [], false⟩
          else if ¬paymentSuccess then
            let b := { booking with
              paymentStatus := PaymentStatus.failed
              bookingStatus := BookingStatus.pending }
            ⟨.paymentFailed b.bookingReference, [b], [], [], true⟩
          else
            let b := { booking with
              paymentStatus := PaymentStatus.completed
              bookingStatus := BookingStatus.confirmed
              transactionId := some txn }
            match seatPatch with
            | .failure => ⟨.seatUpdateFailed, [], [t], [], true⟩
            | .success _ =>
              ⟨.confirmedResp b.bookingReference b.eventTitle b.eventDate
                  b.eventVenue b.numberOfTickets (totalAmount b) b.paymentStatus
                  txn b.bookingStatus, [b], [t], [t], true⟩

/-- Modelled from the spec: the Seat Ledger route
(`src/services/event-service/src/routes/events.js`, `PATCH /:id/seats`) is
not under `src/` — only its tests are.  Those tests fix the behaviour:
`seatsToBook: 2` on `availableSeats: 10` yields `availableSeats: 8`
(positive delta consumes), `seatsToBook: -5` on `10` yields `15`
(negative delta returns), and `seatsToBook: 5` on `availableSeats: 2` is
rejected with "Not enough seats available"; the spec's §6 additionally
requires rejecting any delta that would push `availableSeats` outside
`[0, capacity]`.  Note the spec's parenthetical "(negative = consume,
positive = return)" is inverted relative to these tests. -/
def adjustSeats (e : EventSnapshot) (seatsToBook : Int) : Option EventSnapshot :=
  let newSeats := e.availableSeats - seatsToBook
  if newSeats < 0 ∨ e.capacity < newSeats then none
  else some { e with availableSeats := newSeats }

/-- The distinct response shapes of `PATCH /api/bookings/:id/cancel`, one
constructor per `res.status`/`res.json` site in the handler. -/
inductive CancelResult
| bookingNotFound
| forbidden
| alreadyCancelled
| pastEvent
| cancelledResp (reference : String) (status : BookingStatus)
    (payment : PaymentStatus) (refundAmount : Int)
deriving DecidableEq, Repr

/-- Result of the cancellation handler together with its side effects:
`saved` lists the bookings passed to `save()`, `ledgerCalls` the
`seatsToBook` values sent to the Ledger, and `promotionCall` the
`(eventId, availableSeatsHint)` pair `promoteWaitlistIfPossible` was
invoked with, when it was. -/
structure CancelOutcome where
  result : CancelResult
  saved : List Booking
  ledgerCalls : List Int
  promotionCall : Option (String × Int)
deriving DecidableEq, Repr

/-- Shallow embedding of the `PATCH /api/bookings/:id/cancel` handler
(`router.patch('/:id/cancel')` in `bookings.js`).  `bookingLookup` is the
resolved `findById`, `now` the current clock, and `seatPatch` the resolved
seat-restoration call (only consulted when the booking was confirmed). -/
def cancelBooking (bookingLookup : Option Booking) (user : User) (now : Int)
    (seatPatch : PatchOutcome) : CancelOutcome :=
  match bookingLookup with
  | none => ⟨.bookingNotFound, [], [], none⟩
  | some booking =>
    if booking.userId ≠ user.id ∧ user.role ≠ "admin" then
      ⟨.forbidden, [], [], none⟩
    else if booking.bookingStatus = .cancelled then
      ⟨.alreadyCancelled, [], [], none⟩
    else if booking.eventDate < now then
      ⟨.pastEvent, [], [], none⟩
    else
      let wasConfirmed := booking.bookingStatus = BookingStatus.confirmed
      let b1 := { booking with bookingStatus := BookingStatus.cancelled }
      let b2 :=
        if b1.paymentStatus = PaymentStatus.completed then
          { b1 with paymentStatus := PaymentStatus.refunded }
        else b1
      let resp := CancelResult.cancelledResp b2.bookingReference b2.bookingStatus
        b2.paymentStatus (totalAmount b2)
      if wasConfirmed then
        match seatPatch with
        | .failure =>
          ⟨resp, [b2], [-booking.numberOfTickets], none⟩
        | .success availableSeats? =>
          ⟨resp, [b2], [-booking.numberOfTickets],
            availableSeats?.map (fun a => (booking.eventId, a))⟩
      else
        ⟨resp, [b2], [], none⟩

/-- Line 17 of `bookings.js`:
`typeof availableSeatsHint === 'number' ? availableSeatsHint : event.availableSeats`.
The hint, when it is a number, is used; the event snapshot's
`availableSeats` is only the fallback. -/
def startingSeats (availableSeatsHint : Option Int) (event : EventSnapshot) : Int :=
  match availableSeatsHint with
  | some h => h
  | none => event.availableSeats

/-- Creation-time ordering used by the waitlist query
(`.sort({ createdAt: 1 })`). -/
def createdAtLE (a b : Booking) : Prop :=
  a.createdAt ≤ b.createdAt

instance : DecidableRel createdAtLE := fun a b =>
  inferInstanceAs (Decidable (a.createdAt ≤ b.createdAt))

instance : IsTotal Booking createdAtLE :=
  ⟨fun a b => Int.le_total a.createdAt b.createdAt⟩

instance : IsTrans Booking createdAtLE :=
  ⟨fun _ _ _ hab hbc => le_trans hab hbc⟩

/-- The waitlist the promotion pass iterates over: all bookings for the
event with `bookingStatus = waitlisted`, ordered by `createdAt` ascending. -/
def waitlistOf (store : List Booking) (eventId : String) : List Booking :=
  List.insertionSort createdAtLE
    (store.filter fun b =>
      b.eventId = eventId && b.bookingStatus = BookingStatus.waitlisted)

/-- Side effects of a promotion pass: `saved` lists the candidates
persisted (each already marked confirmed/completed), `ledgerCalls` the
`seatsToBook` values sent, and `appliedDeltas` the calls the Ledger
accepted.  A rejected call aborts the pass via the surrounding `catch`. -/
structure PromoteOutcome where
  saved : List Booking
  ledgerCalls : List Int
  appliedDeltas : List Int
deriving DecidableEq, Repr

/-- The `for (const waitlisted of waitlistedBookings)` loop of
`promoteWaitlistIfPossible`: each fitting candidate is saved as
confirmed/completed with a fresh transaction id, the local counter is
decremented, and the seat delta is sent; a candidate that does not fit
breaks the loop, and a Ledger rejection (`patchOk k = false`) throws,
aborting the pass after the candidate was already saved. -/
def promoteLoop (avail : Int) (ws : List Booking) (txnIds : Nat → String)
    (patchOk : Nat → Bool) (k : Nat) : PromoteOutcome :=
  match ws with
  | [] => ⟨[], [], []⟩
  | w :: rest =>
    if avail < w.numberOfTickets then ⟨[], [], []⟩
    else
      let w2 := { w with
        bookingStatus := BookingStatus.confirmed
        paymentStatus := PaymentStatus.completed
        transactionId := some (txnIds k) }
      if patchOk k then
        let r := promoteLoop (avail - w.numberOfTickets) rest txnIds patchOk (k + 1)
        ⟨w2 :: r.saved, w.numberOfTickets :: r.ledgerCalls,
          w.numberOfTickets :: r.appliedDeltas⟩
      else
        ⟨[w2], [w.numberOfTickets], []⟩

/-- Shallow embedding of `promoteWaitlistIfPossible(eventId,
availableSeatsHint)`.  `eventFetch` is the resolved `GET /events/:id`
(`none` when it threw, which aborts the pass), `store` the booking
collection the waitlist query runs over, `txnIds` the generated
transaction ids per promotion, and `patchOk` the Ledger's verdict per
seat-delta call. -/
def promoteWaitlistIfPossible (eventFetch : Option EventSnapshot)
    (availableSeatsHint : Option Int) (store : List Booking) (eventId : String)
    (txnIds : Nat → String) (patchOk : Nat → Bool) : PromoteOutcome :=
  match eventFetch with
  | none => ⟨[], [], []⟩
  | some event =>
    let avail := startingSeats availableSeatsHint event
    if avail ≤ 0 then ⟨[], [], []⟩
    else promoteLoop avail (waitlistOf store eventId) txnIds patchOk 0

/-- Sum of `numberOfTickets` over a list of bookings. -/
def sumTickets (ws : List Booking) : Int :=
  (ws.map Booking.numberOfTickets).sum

/-- A concrete authenticated user, used in concrete evaluations. -/
def sampleUser : User :=
  { id := "user1", name := "Test User", email := "user1@example.com", role := "user" }

/-- A concrete event snapshot with 10 of 20 seats available. -/
def sampleEvent : EventSnapshot :=
  { id := "e1", title := "Concert", date := 100, venue := "Hall", time := "18:00"
    price := 50, status := "upcoming", availableSeats := 10, capacity := 20 }

/-- A concrete waitlisted booking for `sampleEvent` asking for 3 tickets. -/
def wBooking : Booking :=
  { bookingReference := "BR-W1", userId := "user2", userName := "W", userEmail := "w@example.com"
    eventId := "e1", eventTitle := "Concert", eventDate := 100, eventVenue := "Hall"
    eventTime := "18:00", numberOfTickets := 3, pricePerTicket := 50
    paymentMethod := "credit_card", bookingStatus := .waitlisted, paymentStatus := .pending
    transactionId := none, createdAt := 10 }

/-- A concrete waitlisted booking asking for 6 tickets, created first. -/
def yBooking : Booking :=
  { bookingReference := "BR-Y", userId := "user3", userName := "Y", userEmail := "y@example.com"
    eventId := "e1", eventTitle := "Concert", eventDate := 100, eventVenue := "Hall"
    eventTime := "18:00", numberOfTickets := 6, pricePerTicket := 50
    paymentMethod := "credit_card", bookingStatus := .waitlisted, paymentStatus := .pending
    transactionId := none, createdAt := 1 }

/-- A concrete waitlisted booking asking for 1 ticket, created after
`yBooking`. -/
def zBooking : Booking :=
  { bookingReference := "BR-Z", userId := "user4", userName := "Z", userEmail := "z@example.com"
    eventId := "e1", eventTitle := "Concert", eventDate := 100, eventVenue := "Hall"
    eventTime := "18:00", numberOfTickets := 1, pricePerTicket := 50
    paymentMethod := "credit_card", bookingStatus := .waitlisted, paymentStatus := .pending
    transactionId := none, createdAt := 2 }

/-- A concrete confirmed booking for `sampleEvent` holding 4 tickets. -/
def cBooking : Booking :=
  { bookingReference := "BR-C1", userId := "user1", userName := "Test User"
    userEmail := "user1@example.com", eventId := "e1", eventTitle := "Concert"
    eventDate := 100, eventVenue := "Hall", eventTime := "18:00", numberOfTickets := 4
    pricePerTicket := 50, paymentMethod := "credit_card", bookingStatus := .confirmed
    paymentStatus := .completed, transactionId := some ("TXN0"), createdAt := 5 }

/-- C6 counterexample: with a numeric hint of 3 and a snapshot showing 10
available seats, the starting remaining-seats count is the hint (3), not
the snapshot's 10; consequently a hint of 0 makes the whole pass a no-op
even though the snapshot would allow a promotion. -/
theorem c6_counterexample :
    startingSeats (some 3) sampleEvent = 3 ∧
    sampleEvent.availableSeats = 10 ∧
    ¬ startingSeats (some 3) sampleEvent = sampleEvent.availableSeats ∧
    (promoteWaitlistIfPossible (some sampleEvent) (some 0) [zBooking] "e1"
        (fun _ => "TXNP") (fun _ => true)).saved = [] ∧
    (promoteWaitlistIfPossible (some sampleEvent) none [zBooking] "e1"
        (fun _ => "TXNP") (fun _ => true)).saved ≠ [] := by
  refine ⟨rfl, rfl, by decide, rfl, ?_⟩
  decide

/-- C6 (amended): the caller-supplied hint, when it is a number, takes
priority as the starting remaining-seats count of a promotion pass; the
freshly fetched snapshot's `availableSeats` is only the fallback used when
no numeric hint was supplied. -/
theorem c6_thm :
    (∀ (h : Int) (e : EventSnapshot), startingSeats (some h) e = h) ∧
    (∀ e : EventSnapshot, startingSeats none e = e.availableSeats) :=
  ⟨fun _ _ => rfl, fun _ => rfl⟩

/-- C1 counterexample: a booking for 2 tickets confirmed at creation sends
`seatsToBook = 2` (the positive ticket count) to the Ledger, not the
negative delta `-2` the claim asserts. -/
theorem c1_counterexample :
    (createBooking ⟨some ("e1"), some 2, none, false⟩ sampleUser (some sampleEvent)
        0 "BR1" 0 true ("TXN1") (.success (some 8))).ledgerCalls = [2] ∧
    statusCode (createBooking ⟨some ("e1"), some 2, none, false⟩ sampleUser
        (some sampleEvent) 0 "BR1" 0 true ("TXN1") (.success (some 8))).result = 201 ∧
    ¬ (createBooking ⟨some ("e1"), some 2, none, false⟩ sampleUser (some sampleEvent)
        0 "BR1" 0 true ("TXN1") (.success (some 8))).ledgerCalls = [-2] := by
  refine ⟨rfl, rfl, ?_⟩
  decide

/-- C9: the only ticket-count validation is the JavaScript truthiness
check `!numberOfTickets`, which rejects a missing or zero count but lets a
negative count through: with `numberOfTickets = -1` the handler proceeds
past validation, attempts payment, sends the seat delta `-1` to the
Ledger (which would ADD a seat), and persists the booking as confirmed
with a negative total amount. -/
theorem c9_thm :
    (createBooking ⟨some ("e1"), some 0, none, false⟩ sampleUser (some sampleEvent)
        0 "BR1" 0 true ("TXN1") (.success (some 10))).result = .missingFields ∧
    (createBooking ⟨some ("e1"), some (-1), none, false⟩ sampleUser (some sampleEvent)
        0 "BR1" 0 true ("TXN1") (.success (some 11))).result ≠ .missingFields ∧
    (createBooking ⟨some ("e1"), some (-1), none, false⟩ sampleUser (some sampleEvent)
        0 "BR1" 0 true ("TXN1") (.success (some 11))).paymentAttempted = true ∧
    (createBooking ⟨some ("e1"), some (-1), none, false⟩ sampleUser (some sampleEvent)
        0 "BR1" 0 true ("TXN1") (.success (some 11))).ledgerCalls = [-1] ∧
    (createBooking ⟨some ("e1"), some (-1), none, false⟩ sampleUser (some sampleEvent)
        0 "BR1" 0 true ("TXN1") (.success (some 11))).saved.map
        (fun b => (b.bookingStatus, totalAmount b)) = [(.confirmed, -50)] := by
  refine ⟨rfl, by decide, rfl, rfl, rfl⟩

/-- C7: when the event has fewer available seats than the requested ticket
count and `joinWaitlist` is not set, creation fails with the conflict
response carrying the actual `availableSeats` and the requested count, and
nothing is persisted, no payment is attempted, and no seat delta is sent. -/
theorem c7_thm (req : CreateRequest) (user : User) (event : EventSnapshot)
    (now : Int) (newRef : String) (createdAt : Int) (ps : Bool) (txn : String)
    (patch : PatchOutcome) (t : Int)
    (h1 : jsTruthyStr req.eventId = true)
    (h2 : req.numberOfTickets = some t)
    (h3 : t ≠ 0)
    (h4 : event.status ≠ "cancelled")
    (h5 : ¬ event.date < now)
    (h6 : event.availableSeats < t)
    (h7 : req.joinWaitlist = false) :
    createBooking req user (some event) now newRef createdAt ps txn patch =
      ⟨.notEnoughSeats event.availableSeats t, [], [], [], false⟩ := by
  unfold createBooking
  rw [h2]
  simp [jsTruthyNum, h1, h3, h4, h5, h6, h7]

/-- C7 witness: a concrete shortage without waitlist opt-in. -/
theorem c7_witness :
    jsTruthyStr (some ("e1")) = true ∧ (12 : Int) ≠ 0 ∧
    sampleEvent.status ≠ "cancelled" ∧ ¬ sampleEvent.date < (0 : Int) ∧
    sampleEvent.availableSeats < 12 ∧
    createBooking ⟨some ("e1"), some 12, none, false⟩ sampleUser (some sampleEvent)
        0 "BR1" 0 true ("TXN1") (.success (some 0)) =
      ⟨.notEnoughSeats sampleEvent.availableSeats 12, [], [], [], false⟩ :=
  ⟨rfl, by decide, by decide, by decide, by decide,
    c7_thm ⟨some ("e1"), some 12, none, false⟩ sampleUser sampleEvent 0 "BR1" 0
      true ("TXN1") (.success (some 0)) 12 rfl rfl (by decide) (by decide)
      (by decide) (by decide) rfl⟩

/-- C8: under the same shortage with `joinWaitlist = true`, the persisted
booking is waitlisted with payment pending and no transaction id, no
payment is attempted, no seat delta is sent, and the 202 response is the
reduced projection (reference, status, event snapshot, ticket count). -/
theorem c8_thm (req : CreateRequest) (user : User) (event : EventSnapshot)
    (now : Int) (newRef : String) (createdAt : Int) (ps : Bool) (txn : String)
    (patch : PatchOutcome) (t : Int)
    (h1 : jsTruthyStr req.eventId = true)
    (h2 : req.numberOfTickets = some t)
    (h3 : t ≠ 0)
    (h4 : event.status ≠ "cancelled")
    (h5 : ¬ event.date < now)
    (h6 : event.availableSeats < t)
    (h7 : req.joinWaitlist = true) :
    (createBooking req user (some event) now newRef createdAt ps txn patch).result =
        .waitlistedResp newRef .waitlisted event.title event.date event.venue t ∧
    statusCode (createBooking req user (some event) now newRef createdAt ps txn
        patch).result = 202 ∧
    (createBooking req user (some event) now newRef createdAt ps txn patch).saved.map
        (fun b => (b.bookingStatus, b.paymentStatus, b.transactionId, b.numberOfTickets)) =
      [(.waitlisted, .pending, none, t)] ∧
    (createBooking req user (some event) now newRef createdAt ps txn patch).ledgerCalls =
      [] ∧
    (createBooking req user (some event) now newRef createdAt ps txn
        patch).paymentAttempted = false := by
  unfold createBooking
  rw [h2]
  simp [jsTruthyNum, statusCode, h1, h3, h4, h5, h6, h7]

/-- C8 witness: a concrete shortage with waitlist opt-in. -/
theorem c8_witness :
    jsTruthyStr (some ("e1")) = true ∧ (12 : Int) ≠ 0 ∧
    sampleEvent.status ≠ "cancelled" ∧ ¬ sampleEvent.date < (0 : Int) ∧
    sampleEvent.availableSeats < 12 ∧
    ((createBooking ⟨some ("e1"), some 12, none, true⟩ sampleUser (some sampleEvent)
        0 "BR1" 0 true ("TXN1") (.success (some 0))).result =
        .waitlistedResp ("BR1") .waitlisted sampleEvent.title sampleEvent.date
          sampleEvent.venue 12 ∧
      statusCode (createBooking ⟨some ("e1"), some 12, none, true⟩ sampleUser
        (some sampleEvent) 0 "BR1" 0 true ("TXN1") (.success (some 0))).result = 202 ∧
      (createBooking ⟨some ("e1"), some 12, none, true⟩ sampleUser (some sampleEvent)
        0 "BR1" 0 true ("TXN1") (.success (some 0))).saved.map
        (fun b => (b.bookingStatus, b.paymentStatus, b.transactionId, b.numberOfTickets)) =
        [(.waitlisted, .pending, none, 12)] ∧
      (createBooking ⟨some ("e1"), some 12, none, true⟩ sampleUser (some sampleEvent)
        0 "BR1" 0 true ("TXN1") (.success (some 0))).ledgerCalls = [] ∧
      (createBooking ⟨some ("e1"), some 12, none, true⟩ sampleUser (some sampleEvent)
        0 "BR1" 0 true ("TXN1") (.success (some 0))).paymentAttempted = false) :=
  ⟨rfl, by decide, by decide, by decide, by decide,
    c8_thm ⟨some ("e1"), some 12, none, true⟩ sampleUser sampleEvent 0 "BR1" 0
      true ("TXN1") (.success (some 0)) 12 rfl rfl (by decide) (by decide)
      (by decide) (by decide) rfl⟩

/-- C4: on the non-waitlist path, when payment succeeds but the seat-delta
call to the Ledger fails, nothing is persisted (in particular no booking
reaches the store as confirmed) and the handler answers with the
seat-update failure, a 500 — distinct from the 400 carried by every
validation-class response. -/
theorem c4_thm (req : CreateRequest) (user : User) (event : EventSnapshot)
    (now : Int) (newRef : String) (createdAt : Int) (txn : String) (t : Int)
    (h1 : jsTruthyStr req.eventId = true)
    (h2 : req.numberOfTickets = some t)
    (h3 : t ≠ 0)
    (h4 : event.status ≠ "cancelled")
    (h5 : ¬ event.date < now)
    (h6 : ¬ event.availableSeats < t) :
    createBooking req user (some event) now newRef createdAt true txn .failure =
      ⟨.seatUpdateFailed, [], [t], [], true⟩ ∧
    statusCode CreateResult.seatUpdateFailed = 500 ∧
    statusCode CreateResult.missingFields = 400 ∧
    statusCode CreateResult.eventCancelled = 400 ∧
    statusCode CreateResult.pastEvent = 400 ∧
    statusCode CreateResult.seatUpdateFailed ≠ 400 := by
  refine ⟨?_, rfl, rfl, rfl, rfl, by decide⟩
  unfold createBooking
  rw [h2]
  simp [jsTruthyNum, h1, h3, h4, h5, h6]

/-- C4 witness: a concrete in-capacity booking whose seat delta is
rejected after a successful payment. -/
theorem c4_witness :
    jsTruthyStr (some ("e1")) = true ∧ (2 : Int) ≠ 0 ∧
    sampleEvent.status ≠ "cancelled" ∧ ¬ sampleEvent.date < (0 : Int) ∧
    ¬ sampleEvent.availableSeats < 2 ∧
    (createBooking ⟨some ("e1"), some 2, none, false⟩ sampleUser (some sampleEvent)
        0 "BR1" 0 true ("TXN1") .failure =
      ⟨.seatUpdateFailed, [], [2], [], true⟩ ∧
      statusCode CreateResult.seatUpdateFailed = 500 ∧
      statusCode CreateResult.missingFields = 400 ∧
      statusCode CreateResult.eventCancelled = 400 ∧
      statusCode CreateResult.pastEvent = 400 ∧
      statusCode CreateResult.seatUpdateFailed ≠ 400) :=
  ⟨rfl, by decide, by decide, by decide, by decide,
    c4_thm ⟨some ("e1"), some 2, none, false⟩ sampleUser sampleEvent 0 "BR1" 0
      "TXN1" 2 rfl rfl (by decide) (by decide) (by decide) (by decide)⟩

/-- C10: on the non-waitlist path a post-payment Ledger failure persists
nothing at all (not even a pending booking) and the response carries no
booking reference, whereas a payment failure persists a pending/failed
booking and returns its reference. -/
theorem c10_thm (req : CreateRequest) (user : User) (event : EventSnapshot)
    (now : Int) (newRef : String) (createdAt : Int) (txn : String)
    (patch : PatchOutcome) (t : Int)
    (h1 : jsTruthyStr req.eventId = true)
    (h2 : req.numberOfTickets = some t)
    (h3 : t ≠ 0)
    (h4 : event.status ≠ "cancelled")
    (h5 : ¬ event.date < now)
    (h6 : ¬ event.availableSeats < t) :
    (createBooking req user (some event) now newRef createdAt true txn
        .failure).saved = [] ∧
    responseRef (createBooking req user (some event) now newRef createdAt true txn
        .failure).result = none ∧
    (createBooking req user (some event) now newRef createdAt false txn
        patch).saved.map (fun b => (b.bookingStatus, b.paymentStatus)) =
      [(.pending, .failed)] ∧
    responseRef (createBooking req user (some event) now newRef createdAt false txn
        patch).result = some newRef := by
  unfold createBooking
  rw [h2]
  simp [jsTruthyNum, responseRef, h1, h3, h4, h5, h6]

/-- C10 witness: the two sibling failure paths at a concrete input. -/
theorem c10_witness :
    jsTruthyStr (some ("e1")) = true ∧ (2 : Int) ≠ 0 ∧
    sampleEvent.status ≠ "cancelled" ∧ ¬ sampleEvent.date < (0 : Int) ∧
    ¬ sampleEvent.availableSeats < 2 ∧
    ((createBooking ⟨some ("e1"), some 2, none, false⟩ sampleUser (some sampleEvent)
        0 "BR1" 0 true ("TXN1") .failure).saved = [] ∧
      responseRef (createBooking ⟨some ("e1"), some 2, none, false⟩ sampleUser
        (some sampleEvent) 0 "BR1" 0 true ("TXN1") .failure).result = none ∧
      (createBooking ⟨some ("e1"), some 2, none, false⟩ sampleUser (some sampleEvent)
        0 "BR1" 0 false ("TXN1") (.success (some 8))).saved.map
        (fun b => (b.bookingStatus, b.paymentStatus)) = [(.pending, .failed)] ∧
      responseRef (createBooking ⟨some ("e1"), some 2, none, false⟩ sampleUser
        (some sampleEvent) 0 "BR1" 0 false ("TXN1") (.success (some 8))).result =
        some ("BR1")) :=
  ⟨rfl, by decide, by decide, by decide, by decide,
    c10_thm ⟨some ("e1"), some 2, none, false⟩ sampleUser sampleEvent 0 "BR1" 0
      "TXN1" (.success (some 8)) 2 rfl rfl (by decide) (by decide) (by decide)
      (by decide)⟩

/-- C5: cancelling a confirmed booking always succeeds — the booking is
persisted as cancelled and the caller gets the success payload — whatever
the Ledger does; the seat-restoration delta `-numberOfTickets` is sent,
and the promotion pass is invoked exactly when that call succeeded AND its
response carried the new availability, with that availability as the hint;
otherwise promotion is skipped with no fallback re-fetch. -/
theorem c5_thm (booking : Booking) (user : User) (now : Int) (patch : PatchOutcome)
    (hConf : booking.bookingStatus = .confirmed)
    (hAuth : ¬ (booking.userId ≠ user.id ∧ user.role ≠ "admin"))
    (hPast : ¬ booking.eventDate < now) :
    (∃ ps, (cancelBooking (some booking) user now patch).result =
      .cancelledResp booking.bookingReference .cancelled ps (totalAmount booking)) ∧
    (cancelBooking (some booking) user now patch).saved.map Booking.bookingStatus =
      [.cancelled] ∧
    (cancelBooking (some booking) user now patch).ledgerCalls =
      [-booking.numberOfTickets] ∧
    (cancelBooking (some booking) user now patch).promotionCall =
      (match patch with
       | .success (some a) => some (booking.eventId, a)
       | _ => none) := by
  have hnc : booking.bookingStatus ≠ BookingStatus.cancelled := by
    rw [hConf]; intro h; cases h
  unfold cancelBooking
  by_cases hp : booking.paymentStatus = PaymentStatus.completed <;>
  cases patch with
  | failure => simp [hAuth, hnc, hPast, hConf, hp, totalAmount]
  | success a => cases a <;> simp [hAuth, hnc, hPast, hConf, hp, totalAmount]

/-- C5 witness: a concrete confirmed booking cancelled by its owner while
the Ledger restoration succeeds and reports 9 seats. -/
theorem c5_witness :
    cBooking.bookingStatus = .confirmed ∧
    ¬ (cBooking.userId ≠ sampleUser.id ∧ sampleUser.role ≠ "admin") ∧
    ¬ cBooking.eventDate < (0 : Int) ∧
    ((∃ ps, (cancelBooking (some cBooking) sampleUser 0
          (.success (some 9))).result =
        .cancelledResp cBooking.bookingReference .cancelled ps
          (totalAmount cBooking)) ∧
      (cancelBooking (some cBooking) sampleUser 0
          (.success (some 9))).saved.map Booking.bookingStatus = [.cancelled] ∧
      (cancelBooking (some cBooking) sampleUser 0
          (.success (some 9))).ledgerCalls = [-cBooking.numberOfTickets] ∧
      (cancelBooking (some cBooking) sampleUser 0
          (.success (some 9))).promotionCall = some (cBooking.eventId, 9)) :=
  ⟨rfl, by decide, by decide,
    c5_thm cBooking sampleUser 0 (.success (some 9)) rfl (by decide) (by decide)⟩

/-- Helper: when the remaining seats left after the whole segment `ws1`
would still not cover `blocker`, the loop on `ws1 ++ blocker :: ws2`
promotes at most a prefix of `ws1`: its saved references extend to
`ws1`'s references. -/
theorem promoteLoop_blocked (ws1 : List Booking) :
    ∀ (avail : Int) (blocker : Booking) (ws2 : List Booking)
      (txnIds : Nat → String) (k : Nat),
      avail - sumTickets ws1 < blocker.numberOfTickets →
      ∃ rest,
        ((promoteLoop avail (ws1 ++ blocker :: ws2) txnIds (fun _ => true) k).saved.map
            Booking.bookingReference) ++ rest =
          ws1.map Booking.bookingReference := by
  induction ws1 with
  | nil =>
    intro avail blocker ws2 txnIds k h
    have hb : avail < blocker.numberOfTickets := by
      simpa [sumTickets] using h
    exact ⟨[], by simp [promoteLoop, hb]⟩
  | cons w rest ih =>
    intro avail blocker ws2 txnIds k h
    by_cases hw : avail < w.numberOfTickets
    · exact ⟨w.bookingReference :: rest.map Booking.bookingReference,
        by simp [promoteLoop, hw]⟩
    · have h' : (avail - w.numberOfTickets) - sumTickets rest <
          blocker.numberOfTickets := by
        have hs : sumTickets (w :: rest) = w.numberOfTickets + sumTickets rest := by
          simp [sumTickets]
        omega
      obtain ⟨r, hr⟩ := ih (avail - w.numberOfTickets) blocker ws2 txnIds (k + 1) h'
      refine ⟨r, ?_⟩
      simpa [promoteLoop, hw] using congrArg (List.cons w.bookingReference) hr

/-- C3: the waitlist a promotion pass iterates over is sorted ascending by
creation time, and whenever the seats remaining after some initial segment
`ws1` cannot cover the next candidate (`blocker`), the promoted bookings
are a prefix of `ws1` — nothing at or after the blocker, however small,
is ever promoted in that pass. -/
theorem c3_thm (store : List Booking) (eventId : String) (event : EventSnapshot)
    (hint : Option Int) (txnIds : Nat → String) (ws1 : List Booking)
    (blocker : Booking) (ws2 : List Booking)
    (hsplit : waitlistOf store eventId = ws1 ++ blocker :: ws2)
    (hblock : startingSeats hint event - sumTickets ws1 < blocker.numberOfTickets) :
    List.Sorted createdAtLE (waitlistOf store eventId) ∧
    ∃ rest,
      ((promoteWaitlistIfPossible (some event) hint store eventId txnIds
          (fun _ => true)).saved.map Booking.bookingReference) ++ rest =
        ws1.map Booking.bookingReference := by
  constructor
  · unfold waitlistOf
    exact List.sorted_insertionSort createdAtLE _
  · unfold promoteWaitlistIfPossible
    by_cases hz : startingSeats hint event ≤ 0
    · exact ⟨ws1.map Booking.bookingReference, by simp [hz]⟩
    · rw [hsplit] at *
      simpa [hz] using
        promoteLoop_blocked ws1 (startingSeats hint event) blocker ws2 txnIds 0 hblock

/-- C3 witness: an event with 5 freed seats, an earlier waitlisted booking
for 6 tickets and a later one for 1 ticket — the pass promotes nobody. -/
theorem c3_witness :
    waitlistOf [yBooking, zBooking] "e1" = [] ++ yBooking :: [zBooking] ∧
    startingSeats (some 5) sampleEvent - sumTickets [] < yBooking.numberOfTickets ∧
    (List.Sorted createdAtLE (waitlistOf [yBooking, zBooking] "e1") ∧
      ∃ rest,
        ((promoteWaitlistIfPossible (some sampleEvent) (some 5) [yBooking, zBooking]
            "e1" (fun _ => "TXNP") (fun _ => true)).saved.map
            Booking.bookingReference) ++ rest =
          ([] : List Booking).map Booking.bookingReference) :=
  ⟨by decide, by decide,
    c3_thm [yBooking, zBooking] "e1" sampleEvent (some 5) (fun _ => "TXNP") []
      yBooking [zBooking] (by decide) (by decide)⟩

/-- Helper: in a promotion pass, the deltas the Ledger accepted are
exactly the ticket counts of the promoted candidates — whenever the pass
terminates without a Ledger failure. -/
theorem promoteLoop_applied (ws : List Booking) :
    ∀ (avail : Int) (txnIds : Nat → String) (k : Nat),
      (promoteLoop avail ws txnIds (fun _ => true) k).appliedDeltas =
        (promoteLoop avail ws txnIds (fun _ => true) k).saved.map
          Booking.numberOfTickets := by
  induction ws with
  | nil => intro avail txnIds k; simp [promoteLoop]
  | cons w rest ih =>
    intro avail txnIds k
    by_cases hw : avail < w.numberOfTickets
    · simp [promoteLoop, hw]
    · simpa [promoteLoop, hw] using ih (avail - w.numberOfTickets) txnIds (k + 1)

/-- C2 counterexample: a promotion pass over one waitlisted booking for 3
tickets with 5 seats free saves the booking as confirmed, but the Ledger
rejects the delta — the pass swallows the failure, leaving a booking
persisted as confirmed with no seat consumption applied. -/
theorem c2_counterexample :
    (promoteWaitlistIfPossible (some sampleEvent) (some 5) [wBooking] "e1"
        (fun _ => "TXNP") (fun _ => false)).saved.map
        (fun b => (b.bookingReference, b.bookingStatus)) =
      [("BR-W1", .confirmed)] ∧
    (promoteWaitlistIfPossible (some sampleEvent) (some 5) [wBooking] "e1"
        (fun _ => "TXNP") (fun _ => false)).appliedDeltas = [] ∧
    (promoteWaitlistIfPossible (some sampleEvent) (some 5) [wBooking] "e1"
        (fun _ => "TXNP") (fun _ => false)).ledgerCalls = [3] := by
  refine ⟨rfl, rfl, rfl⟩

/-- C2 (amended): on the creation path the invariant holds — whenever the
creation handler persists a confirmed booking, the Ledger accepted exactly
one delta, equal to that booking's ticket count (and a rejection prevents
the confirmed persist, since nothing is saved then); a promotion pass
whose deltas are all accepted likewise applies exactly one delta per
promoted candidate.  The promotion path can violate the invariant only
when a delta fails after the candidate was already saved as confirmed. -/
theorem c2_thm :
    (∀ (req : CreateRequest) (user : User) (ev : Option EventSnapshot) (now : Int)
        (newRef : String) (createdAt : Int) (ps : Bool) (txn : String)
        (patch : PatchOutcome),
      BookingStatus.confirmed ∈
          (createBooking req user ev now newRef createdAt ps txn patch).saved.map
            Booking.bookingStatus →
      (createBooking req user ev now newRef createdAt ps txn patch).appliedDeltas =
          (createBooking req user ev now newRef createdAt ps txn patch).saved.map
            Booking.numberOfTickets ∧
        (createBooking req user ev now newRef createdAt ps txn patch).saved.length
          = 1) ∧
    (∀ (ws : List Booking) (avail : Int) (txnIds : Nat → String) (k : Nat),
      (promoteLoop avail ws txnIds (fun _ => true) k).appliedDeltas =
        (promoteLoop avail ws txnIds (fun _ => true) k).saved.map
          Booking.numberOfTickets) := by
  constructor
  · intro req user ev now newRef createdAt ps txn patch
    by_cases hV : (!(jsTruthyStr req.eventId) || !(jsTruthyNum req.numberOfTickets))
        = true
    · simp [createBooking, hV]
    · rw [Bool.not_eq_true] at hV
      cases ev with
      | none => simp [createBooking, hV]
      | some event =>
        by_cases hC : event.status = "cancelled"
        · simp [createBooking, hV, hC]
        · by_cases hD : event.date < now
          · simp [createBooking, hV, hC, hD]
          · by_cases hW : event.availableSeats < req.numberOfTickets.getD 0
            · cases hJ : req.joinWaitlist <;>
                simp [createBooking, hV, hC, hD, hW, hJ]
            · cases ps with
              | false => simp [createBooking, hV, hC, hD, hW]
              | true =>
                cases patch with
                | failure => simp [createBooking, hV, hC, hD, hW]
                | success a => simp [createBooking, hV, hC, hD, hW]
  · intro ws avail txnIds k
    exact promoteLoop_applied ws avail txnIds k

/-- C2 witness: a concrete confirmed creation — one accepted delta of
exactly the booking's 2 tickets. -/
theorem c2_witness :
    BookingStatus.confirmed ∈
        (createBooking ⟨some ("e1"), some 2, none, false⟩ sampleUser (some sampleEvent)
          0 "BR1" 0 true ("TXN1") (.success (some 8))).saved.map
          Booking.bookingStatus ∧
    ((createBooking ⟨some ("e1"), some 2, none, false⟩ sampleUser (some sampleEvent)
          0 "BR1" 0 true ("TXN1") (.success (some 8))).appliedDeltas =
        (createBooking ⟨some ("e1"), some 2, none, false⟩ sampleUser (some sampleEvent)
          0 "BR1" 0 true ("TXN1") (.success (some 8))).saved.map
          Booking.numberOfTickets ∧
      (createBooking ⟨some ("e1"), some 2, none, false⟩ sampleUser (some sampleEvent)
          0 "BR1" 0 true ("TXN1") (.success (some 8))).saved.length = 1) :=
  ⟨by decide,
    c2_thm.1 ⟨some ("e1"), some 2, none, false⟩ sampleUser (some sampleEvent) 0 "BR1"
      0 true ("TXN1") (.success (some 8)) (by decide)⟩

/-- Helper: every seat delta a promotion pass sends is the ticket count of
the candidate just promoted, whatever the Ledger answers. -/
theorem promoteLoop_calls (ws : List Booking) :
    ∀ (avail : Int) (txnIds : Nat → String) (patchOk : Nat → Bool) (k : Nat),
      (promoteLoop avail ws txnIds patchOk k).ledgerCalls =
        (promoteLoop avail ws txnIds patchOk k).saved.map
          Booking.numberOfTickets := by
  induction ws with
  | nil => intro avail txnIds patchOk k; simp [promoteLoop]
  | cons w rest ih =>
    intro avail txnIds patchOk k
    by_cases hw : avail < w.numberOfTickets
    · simp [promoteLoop, hw]
    · cases hpk : patchOk k with
      | false => simp [promoteLoop, hw, hpk]
      | true =>
        simpa [promoteLoop, hw, hpk] using
          ih (avail - w.numberOfTickets) txnIds patchOk (k + 1)

/-- C1 (amended): the engine's sign convention is the one the Ledger's own
tests enforce — the inverse of the spec's parenthetical.  A confirmation
at creation sends `seatsToBook = +numberOfTickets`, every promotion sends
the promoted candidate's positive ticket count, a cancellation of a
confirmed booking sends `-numberOfTickets`; and at the Ledger a positive
delta consumes (availableSeats decreases by it) while a negative delta
returns (availableSeats increases). -/
theorem c1_thm (req : CreateRequest) (user : User) (event : EventSnapshot)
    (now : Int) (newRef : String) (createdAt : Int) (txn : String)
    (avail2 : Option Int) (t : Int)
    (booking : Booking) (user2 : User) (now2 : Int) (patch2 : PatchOutcome)
    (e : EventSnapshot) (d : Int)
    (h1 : jsTruthyStr req.eventId = true)
    (h2 : req.numberOfTickets = some t)
    (h3 : t ≠ 0)
    (h4 : event.status ≠ "cancelled")
    (h5 : ¬ event.date < now)
    (h6 : ¬ event.availableSeats < t)
    (hConf : booking.bookingStatus = .confirmed)
    (hAuth : ¬ (booking.userId ≠ user2.id ∧ user2.role ≠ "admin"))
    (hPast : ¬ booking.eventDate < now2)
    (hd : 0 < d)
    (hda : d ≤ e.availableSeats)
    (hcap : e.availableSeats ≤ e.capacity)
    (hret : e.availableSeats + d ≤ e.capacity) :
    (createBooking req user (some event) now newRef createdAt true txn
        (.success avail2)).ledgerCalls = [t] ∧
    (cancelBooking (some booking) user2 now2 patch2).ledgerCalls =
      [-booking.numberOfTickets] ∧
    (∀ (ws : List Booking) (avail : Int) (txnIds : Nat → String)
        (patchOk : Nat → Bool) (k : Nat),
      (promoteLoop avail ws txnIds patchOk k).ledgerCalls =
        (promoteLoop avail ws txnIds patchOk k).saved.map
          Booking.numberOfTickets) ∧
    adjustSeats e d = some { e with availableSeats := e.availableSeats - d } ∧
    adjustSeats e (-d) = some { e with availableSeats := e.availableSeats + d } := by
  refine ⟨?_, ?_, ?_, ?_, ?_⟩
  · unfold createBooking
    rw [h2]
    simp [jsTruthyNum, h1, h3, h4, h5, h6]
  · have hnc : booking.bookingStatus ≠ BookingStatus.cancelled := by
      rw [hConf]; intro h; cases h
    unfold cancelBooking
    by_cases hp : booking.paymentStatus = PaymentStatus.completed <;>
    cases patch2 with
    | failure => simp [hAuth, hnc, hPast, hConf, hp]
    | success a => cases a <;> simp [hAuth, hnc, hPast, hConf, hp]
  · intro ws avail txnIds patchOk k
    exact promoteLoop_calls ws avail txnIds patchOk k
  · have hcond : ¬ (e.availableSeats - d < 0 ∨ e.capacity < e.availableSeats - d) := by
      omega
    simp [adjustSeats, hcond]
    omega
  · have hcond : ¬ (e.availableSeats - -d < 0 ∨ e.capacity < e.availableSeats - -d) := by
      omega
    simp [adjustSeats, hcond]
    omega

/-- C1 witness: a concrete 2-ticket confirmation, a concrete cancellation
of a 4-ticket confirmed booking, and the Ledger adjustment at delta 2 and
-2 on an event with 10 of 20 seats. -/
theorem c1_witness :
    jsTruthyStr (some ("e1")) = true ∧ (2 : Int) ≠ 0 ∧
    sampleEvent.status ≠ "cancelled" ∧ ¬ sampleEvent.date < (0 : Int) ∧
    ¬ sampleEvent.availableSeats < 2 ∧
    cBooking.bookingStatus = .confirmed ∧
    ¬ (cBooking.userId ≠ sampleUser.id ∧ sampleUser.role ≠ "admin") ∧
    ¬ cBooking.eventDate < (0 : Int) ∧
    (0 : Int) < 2 ∧ (2 : Int) ≤ sampleEvent.availableSeats ∧
    sampleEvent.availableSeats ≤ sampleEvent.capacity ∧
    sampleEvent.availableSeats + 2 ≤ sampleEvent.capacity ∧
    ((createBooking ⟨some ("e1"), some 2, none, false⟩ sampleUser (some sampleEvent)
        0 "BR1" 0 true ("TXN1") (.success (some 8))).ledgerCalls = [2] ∧
      (cancelBooking (some cBooking) sampleUser 0
        (.success (some 9))).ledgerCalls = [-cBooking.numberOfTickets] ∧
      (∀ (ws : List Booking) (avail : Int) (txnIds : Nat → String)
          (patchOk : Nat → Bool) (k : Nat),
        (promoteLoop avail ws txnIds patchOk k).ledgerCalls =
          (promoteLoop avail ws txnIds patchOk k).saved.map
            Booking.numberOfTickets) ∧
      adjustSeats sampleEvent 2 =
        some { sampleEvent with availableSeats := sampleEvent.availableSeats - 2 } ∧
      adjustSeats sampleEvent (-2) =
        some { sampleEvent with availableSeats := sampleEvent.availableSeats + 2 }) :=
  ⟨rfl, by decide, by decide, by decide, by decide, rfl, by decide, by decide,
    by decide, by decide, by decide, by decide,
    c1_thm ⟨some ("e1"), some 2, none, false⟩ sampleUser sampleEvent 0 "BR1" 0
      "TXN1" (some 8) 2 cBooking sampleUser 0 (.success (some 9)) sampleEvent 2
      rfl rfl (by decide) (by decide) (by decide) (by decide) rfl (by decide)
      (by decide) (by decide) (by decide) (by decide) (by decide)⟩

end Eventrix
